import Mathlib

/-!
Shallow embedding of `yahoo_gui_mutliple_srch.py`: the scrape-with-backoff
fetcher `scrape_yahoo_tables` and the per-ticker export pipeline
`fetch_and_export`, together with theorems settling claims about them.

Modelling conventions:
* pandas DataFrames become `Table` (a list of column headers plus a list
  of rows of cells); `df.empty` is `Table.isEmpty` (true when either axis
  has length zero).
* Cell values are `CellVal`: a rational number, a text string, or the
  missing marker `na` (pandas `NaN`).
* Network I/O is abstracted by a response oracle `Nat → HttpResult`
  giving the outcome of the GET on each attempt index; `time.sleep` and
  the GET calls are recorded in an event trace instead of being
  performed.
* Workbook writing is modelled as building the ordered list of sheets
  that the `to_excel` calls would create; cell number formats ("0.0"),
  a display-only mutation, are not modelled, but the `writer.sheets[...]`
  dictionary lookups that the formatting code performs are, since a
  missing key raises `KeyError`.
-/

namespace YahooFetch

/-- A cell of a table: numeric, text, or missing (pandas `NaN`). -/
inductive CellVal where
  | num (q : ℚ)
  | text (s : String)
  | na
deriving DecidableEq, Repr

/-- A column label: either a raw positional index (as produced by
`pd.read_html` when the HTML table has no header row) or a string name. -/
inductive ColHeader where
  | idx (n : Nat)
  | name (s : String)
deriving DecidableEq, Repr

/-- A pandas DataFrame, shallowly: ordered column headers and rows of
cells.  Row-index labels are not modelled except for the price-history
frame, which carries its datetime index separately (`HistoryTable`). -/
structure Table where
  headers : List ColHeader
  rows : List (List CellVal)
deriving DecidableEq, Repr

/-- Models `df.empty`: true when either axis is 0-length. -/
def Table.isEmpty (t : Table) : Bool :=
  t.headers.isEmpty || t.rows.isEmpty

/-- Models `pd.DataFrame()`. -/
def emptyTable : Table := ⟨[], []⟩

/-! Section: `pd.concat(tables, ignore_index=True)` (line 35)

Vertical stacking with an outer join on column labels: the column set of
the result is the union of the columns of the inputs in order of first
appearance, and each row is re-aligned to that union with `NaN` fill.
`ignore_index=True` resets the row index, which is not modelled since
rows are an unlabelled list. -/

/-- Union of header lists in order of first appearance. -/
def headerUnion (ls : List (List ColHeader)) : List ColHeader :=
  ls.foldl (fun acc hs => acc ++ hs.filter (fun h => ¬ acc.contains h)) []

/-- Re-align one row (whose cells are positioned by `hs`) to the header
union `u`, filling missing columns with `na`. -/
def alignRow (hs : List ColHeader) (u : List ColHeader) (row : List CellVal) : List CellVal :=
  u.map (fun h =>
    match hs.indexOf? h with
    | some i => row.getD i CellVal.na
    | none => CellVal.na)

/-- Models `pd.concat(tables, ignore_index=True)`. -/
def concatTables (ts : List Table) : Table :=
  let u := headerUnion (ts.map Table.headers)
  ⟨u, ts.flatMap (fun t => t.rows.map (alignRow t.headers u))⟩

/-! Section: The scraper `scrape_yahoo_tables` (lines 20-51) -/

/-- Whether `p` is a leading segment of `s` (on character lists). -/
def isPrefixList : List Char → List Char → Bool
  | [], _ => true
  | _ :: _, [] => false
  | p :: ps, c :: cs => p == c && isPrefixList ps cs

/-- Whether `pat` occurs somewhere in `s` (on character lists). -/
def hasSubstrList (pat : List Char) : List Char → Bool
  | [] => pat.isEmpty
  | c :: cs => isPrefixList pat (c :: cs) || hasSubstrList pat cs

/-- Python substring test `pat in s` on strings. -/
def strContains (s pat : String) : Bool :=
  hasSubstrList pat.toList s.toList

/-- Python membership test `"pat" in str(e)` for a
`requests.exceptions.HTTPError` raised on `url` with HTTP status
`code` (lines 37 and 42): the message reads
"{code} Client Error: {reason} for url: {url}" (or Server Error), the
standard reason phrases hold no digits, and a three-digit status string
contains a three-digit pattern exactly when equal to it — so the digit
pattern `pat` (with numeric value `patCode`) occurs in the message
exactly when the status code equals `patCode` or `pat` occurs in the
URL text. -/
def errMsgHas (code : Nat) (url : String) (patCode : Nat) (pat : String) : Bool :=
  code == patCode || strContains url pat

/-- Outcome of one `requests.get` + `raise_for_status` + `pd.read_html`
round: success with the parsed list of tables, an HTTP error with its
status code (429, 404, or any other), or any other exception (network
failure, or `pd.read_html` raising because the body holds no table). -/
inductive HttpResult where
  | ok (tables : List Table)
  | httpErr (code : Nat)
  | exc
deriving DecidableEq, Repr

/-- An observable side effect of the scraper: one GET attempt, or one
`time.sleep(d)`. -/
inductive ScrapeEvent where
  | get
  | sleep (d : Nat)
deriving DecidableEq, Repr

/-- Result of a scraper run: the returned table and the ordered trace of
GET attempts and sleeps. -/
structure ScrapeTrace where
  result : Table
  events : List ScrapeEvent
deriving DecidableEq, Repr

/-- The sleep durations of a trace, in order. -/
def ScrapeTrace.sleeps (t : ScrapeTrace) : List Nat :=
  t.events.filterMap (fun e =>
    match e with
    | ScrapeEvent.sleep d => some d
    | ScrapeEvent.get => none)

/-- The number of GET attempts of a trace. -/
def ScrapeTrace.gets (t : ScrapeTrace) : Nat :=
  (t.events.filter (fun e => e = ScrapeEvent.get)).length

/-- The loop body of `scrape_yahoo_tables`: `for attempt in range(retries)`
with the try/except dispatch on the response.  `fuel` is the number of
remaining loop iterations, `attempt` the current attempt index, `delay`
the mutable backoff delay, `evs` the reversed event accumulator.

On success, `if tables:` returns the concatenation when the list is
non-empty and otherwise falls through to the next iteration.  An
`HTTPError` is classified by substring search on `str(e)` — which embeds
the URL — with the `"429" in str(e)` test taking precedence (line 37):
that branch sleeps `delay`, adds 5 to `delay` and continues; the
`"404" in str(e)` branch (line 42) and the remaining HTTP-error branch
both break, as does any other exception; falling off the loop returns
`pd.DataFrame()`. -/
def scrapeGo (url : String) (resp : Nat → HttpResult) :
    Nat → Nat → Nat → List ScrapeEvent → ScrapeTrace
  | 0, _, _, evs => ⟨emptyTable, evs.reverse⟩
  | fuel + 1, attempt, delay, evs =>
    let evs := ScrapeEvent.get :: evs
    match resp attempt with
    | HttpResult.ok tables =>
      if tables.isEmpty then
        scrapeGo url resp fuel (attempt + 1) delay evs
      else
        ⟨concatTables tables, evs.reverse⟩
    | HttpResult.httpErr code =>
      if errMsgHas code url 429 "429" then
        scrapeGo url resp fuel (attempt + 1) (delay + 5) (ScrapeEvent.sleep delay :: evs)
      else if errMsgHas code url 404 "404" then
        ⟨emptyTable, evs.reverse⟩
      else
        ⟨emptyTable, evs.reverse⟩
    | HttpResult.exc => ⟨emptyTable, evs.reverse⟩

/-- Models `scrape_yahoo_tables(url, retries=3, delay=5)`, with the
network replaced by the response oracle `resp`; the `url` argument still
matters because the error dispatch searches the exception message, which
embeds it. -/
def scrape_yahoo_tables (url : String) (resp : Nat → HttpResult)
    (retries : Nat := 3) (delay : Nat := 5) : ScrapeTrace :=
  scrapeGo url resp retries 0 delay []

/-- The response oracle of a URL that is rate-limited on every attempt. -/
def always429 : Nat → HttpResult := fun _ => HttpResult.httpErr 429

/-- The response oracle of a URL whose GET yields HTTP 404 on every
attempt. -/
def always404 : Nat → HttpResult := fun _ => HttpResult.httpErr 404

/-- Line 70: the key-statistics URL template. -/
def stats_url (ticker : String) : String :=
  "https://finance.yahoo.com/quote/" ++ ticker ++ "/key-statistics?p=" ++ ticker

/-- Line 71: the analysis URL template. -/
def analysis_url (ticker : String) : String :=
  "https://finance.yahoo.com/quote/" ++ ticker ++ "/analysis/"

/-- The event trace produced by `fuel` consecutive 429 iterations
starting at backoff delay `d`. -/
def pattern429 : Nat → Nat → List ScrapeEvent
  | 0, _ => []
  | fuel + 1, d => ScrapeEvent.get :: ScrapeEvent.sleep d :: pattern429 fuel (d + 5)

/-! Section: Numeric coercion and unit scaling (lines 86, 100, 114) -/

/-- Value of a non-empty all-digit character list, most significant digit
first; `none` when the list is empty or holds a non-digit. -/
def digitsVal (cs : List Char) : Option Nat :=
  if cs.isEmpty || !(cs.all Char.isDigit) then none
  else some (cs.foldl (fun acc c => acc * 10 + (c.toNat - Char.toNat '0')) 0)

/-- Models the `pd.to_numeric` string coercion, restricted to plain decimal
literals: optional sign, integer digits, optionally a dot and fractional
digits.  (The pandas parser also accepts exponents and some edge forms;
the claims depend only on the numeric / non-numeric distinction.) -/
def parseDecimal (s : String) : Option ℚ :=
  let cs := s.toList
  let signBody : Bool × List Char :=
    match cs with
    | '-' :: rest => (true, rest)
    | '+' :: rest => (false, rest)
    | _ => (false, cs)
  match signBody.2.splitOn '.' with
  | [ip] => (digitsVal ip).map (fun n => if signBody.1 then -(n : ℚ) else (n : ℚ))
  | [ip, fp] =>
    match digitsVal ip, digitsVal fp with
    | some a, some b =>
      let q : ℚ := (a : ℚ) + (b : ℚ) / ((10 : ℚ) ^ fp.length)
      some (if signBody.1 then -q else q)
    | _, _ => none
  | _ => none

/-- Models `pd.to_numeric` with errors="coerce" on one cell: numbers pass
through, numeric text is parsed, everything else becomes `NaN`. -/
def toNumericCell (c : CellVal) : CellVal :=
  match c with
  | CellVal.num q => CellVal.num q
  | CellVal.text s =>
    match parseDecimal s with
    | some q => CellVal.num q
    | none => CellVal.na
  | CellVal.na => CellVal.na

/-- Division of a coerced cell by 1000; `NaN / 1000 = NaN` (a coerced
cell is never text). -/
def divCell1000 (c : CellVal) : CellVal :=
  match c with
  | CellVal.num q => CellVal.num (q / 1000)
  | _ => CellVal.na

/-- Lines 86, 100, 114: the normalization `df.apply(pd.to_numeric, errors="coerce") / 1000`
applied to the balance-sheet, income-statement and cashflow frames. -/
def normThousands (t : Table) : Table :=
  { t with rows := t.rows.map (fun r => r.map (fun c => divCell1000 (toNumericCell c))) }

/-- The cell in row `i`, column `j` of a table, when both exist. -/
def Table.cellAt (t : Table) (i j : Nat) : Option CellVal :=
  t.rows[i]?.bind (fun r => r[j]?)

/-- Models `df.round(2)` on one cell (line 83).  Python rounds half to even
while `round` rounds half up; the two differ only at exact ties, on
which no claim depends. -/
def roundCell2 (c : CellVal) : CellVal :=
  match c with
  | CellVal.num q => CellVal.num (((round (q * 100) : ℤ) : ℚ) / 100)
  | _ => c

/-- Models `df.round(2)` on the data cells of a table. -/
def Table.round2 (t : Table) : Table :=
  { t with rows := t.rows.map (fun r => r.map roundCell2) }

/-! Section: The price-history frame and its timezone normalization -/

/-- A wall-clock timestamp with an optional timezone tag: `tz = some o`
models a tz-aware pandas timestamp at fixed offset `o` minutes, `none` a
naive one.  `tz_localize(None)` keeps the wall-clock value shown for the
timestamp and drops the tag. -/
structure TzTime where
  wall : Int
  tz : Option Int
deriving DecidableEq, Repr

/-- The history frame: a datetime row index plus the data columns. -/
structure HistoryTable where
  index : List TzTime
  cols : List ColHeader
  rows : List (List CellVal)
deriving DecidableEq, Repr

/-- Models `history_df.empty`. -/
def HistoryTable.isEmpty (h : HistoryTable) : Bool :=
  h.index.isEmpty || h.cols.isEmpty

/-- The data columns of the history frame as a plain table. -/
def HistoryTable.data (h : HistoryTable) : Table := ⟨h.cols, h.rows⟩

/-- Lines 59-60: `if not history_df.empty and hasattr(history_df.index,
"tz_localize"): history_df.index = history_df.index.tz_localize(None)`.
The `hasattr` test is true for the `DatetimeIndex` that `stock.history`
returns, so only the emptiness guard is modelled. -/
def normalizeHistory (h : HistoryTable) : HistoryTable :=
  if !h.isEmpty then
    { h with index := h.index.map (fun e => { e with tz := none }) }
  else h

/-! Section: Output path (lines 75-77) -/

/-- The timestamp fields used by `datetime.now().strftime`. -/
structure PyDateTime where
  year : Nat
  month : Nat
  day : Nat
  hour : Nat
  minute : Nat
  second : Nat
deriving DecidableEq, Repr

/-- A two-digit zero-padded `strftime` field (`%m %d %H %M %S`); the
calendar bounds the fields below 100, so two digits always suffice. -/
def pad2 (n : Nat) : String :=
  String.mk [Nat.digitChar (n / 10 % 10), Nat.digitChar (n % 10)]

/-- The four-digit zero-padded `%Y` field. -/
def pad4 (n : Nat) : String :=
  String.mk [Nat.digitChar (n / 1000 % 10), Nat.digitChar (n / 100 % 10),
    Nat.digitChar (n / 10 % 10), Nat.digitChar (n % 10)]

/-- Line 75: `datetime.now().strftime("%Y%m%d_%H%M%S")`. -/
def strftimeTimestamp (d : PyDateTime) : String :=
  pad4 d.year ++ pad2 d.month ++ pad2 d.day ++ "_"
    ++ pad2 d.hour ++ pad2 d.minute ++ pad2 d.second

/-- Python ticker.replace of dots by underscores (single-character
pattern, so a
character map). -/
def replaceDot (s : String) : String :=
  String.mk (s.toList.map (fun c => if c = '.' then '_' else c))

/-- Line 76: the output file name. -/
def outputFilename (ticker : String) (now : PyDateTime) : String :=
  replaceDot ticker ++ "_YahooFinanceData_" ++ strftimeTimestamp now ++ ".xlsx"

/-- Line 77: `os.path.join(OUTPUT_DIR, filename)` with
`OUTPUT_DIR = "exports"`. -/
def outputFilepath (ticker : String) (now : PyDateTime) : String :=
  "exports/" ++ outputFilename ticker now

/-! Section: The export pipeline `fetch_and_export` (lines 54-140) -/

/-- An error escaping `fetch_and_export`: a `writer.sheets[...]` lookup
on a sheet that was never created (Python `KeyError`), or the
length-mismatch `ValueError` of a column relabelling. -/
inductive PipeError where
  | keyError (sheet : String)
  | valueError (msg : String)
deriving DecidableEq, Repr

/-- Lines 133-134: relabel the analysis frame when its first column
label is the raw positional index `0`.  Python
`df.columns = ["Metric", "Value"]` raises `ValueError` (length mismatch)
unless the frame has exactly two columns.  A frame with zero columns is
`empty` and never reaches this code, so `head? = none` returns the frame
unchanged. -/
def relabelAnalysis (t : Table) : Except PipeError Table :=
  match t.headers.head? with
  | some (ColHeader.idx 0) =>
    if t.headers.length = 2 then
      Except.ok { t with headers := [ColHeader.name "Metric", ColHeader.name "Value"] }
    else
      Except.error (PipeError.valueError "Length mismatch")
  | _ => Except.ok t

/-- One `to_excel` call: the sheet name, whether the row index is
written as the first column of the sheet, and the data written. -/
structure Sheet where
  sheetName : String
  withIndex : Bool
  table : Table
deriving DecidableEq, Repr

/-- The written workbook: the output path and the sheets in write
order. -/
structure Workbook where
  path : String
  sheets : List Sheet
deriving DecidableEq, Repr

/-- Models `writer.sheets[n]`: the dictionary of sheets created so far. -/
def lookupSheet (sheets : List Sheet) (n : String) : Option Sheet :=
  sheets.find? (fun s => s.sheetName = n)

/-- The per-ticker inputs of one `fetch_and_export` call.  The provider
frames are given already passed through `safe_df` / the `isinstance`
guards (a non-frame return is the empty table, a non-dict `info` or
`calendar` is the empty list); the two scrape targets are response
oracles as in `scrape_yahoo_tables`. -/
structure FetchInputs where
  ticker : String
  now : PyDateTime
  history : HistoryTable
  balance_sheet : Table
  financials : Table
  cashflow : Table
  info : List (String × CellVal)
  calendar : List (String × CellVal)
  statsResp : Nat → HttpResult
  analysisResp : Nat → HttpResult

/-- Lines 54-140, `fetch_and_export(ticker)`: normalize the history
index, build the info frame, scrape the two pages, compute the output
path, then write the sheets in order.  The `writer.sheets["Balance_Sheet"]`,
`writer.sheets["Income_Stmnt"]` and `writer.sheets["Cashflow"]` lookups
of the formatting blocks (lines 90, 104, 118) sit *outside* the
emptiness guards in the source, so they run unconditionally and raise
`KeyError` when the corresponding sheet was not written; the number
formats they would set are display-only and not modelled. -/
def fetch_and_export (inp : FetchInputs) : Except PipeError Workbook :=
  let history_df := normalizeHistory inp.history
  let balance_sheet_df := inp.balance_sheet
  let financials_df := inp.financials
  let cashflow_df := inp.cashflow
  let info_df : Table :=
    if inp.info ≠ [] then
      ⟨[ColHeader.name "Attribute", ColHeader.name "Value"],
        inp.info.map (fun kv => [CellVal.text kv.1, kv.2])⟩
    else ⟨[ColHeader.name "Attribute", ColHeader.name "Value"], []⟩
  let yahoo_stats_df := (scrape_yahoo_tables (stats_url inp.ticker) inp.statsResp).result
  let yahoo_analysis_df := (scrape_yahoo_tables (analysis_url inp.ticker) inp.analysisResp).result
  let filepath := outputFilepath inp.ticker inp.now
  let s1 : List Sheet :=
    if !info_df.isEmpty then [⟨"Company_Info", false, info_df⟩] else []
  let s2 :=
    if !history_df.isEmpty then
      s1 ++ [⟨"Price_History", true, history_df.data.round2⟩]
    else s1
  let s3 :=
    if !balance_sheet_df.isEmpty then
      s2 ++ [⟨"Balance_Sheet", true, normThousands balance_sheet_df⟩]
    else s2
  match lookupSheet s3 "Balance_Sheet" with
  | none => Except.error (PipeError.keyError "Balance_Sheet")
  | some _ =>
    let s4 :=
      if !financials_df.isEmpty then
        s3 ++ [⟨"Income_Stmnt", true, normThousands financials_df⟩]
      else s3
    match lookupSheet s4 "Income_Stmnt" with
    | none => Except.error (PipeError.keyError "Income_Stmnt")
    | some _ =>
      let s5 :=
        if !cashflow_df.isEmpty then
          s4 ++ [⟨"Cashflow", true, normThousands cashflow_df⟩]
        else s4
      match lookupSheet s5 "Cashflow" with
      | none => Except.error (PipeError.keyError "Cashflow")
      | some _ =>
        let s6 :=
          if inp.calendar ≠ [] then
            s5 ++ [⟨"Calendar", false,
              ⟨[ColHeader.name "Event", ColHeader.name "Date"],
                inp.calendar.map (fun kv => [CellVal.text kv.1, kv.2])⟩⟩]
          else s5
        let s7 :=
          if !yahoo_stats_df.isEmpty then
            s6 ++ [⟨"Key_Statistics", false, yahoo_stats_df⟩]
          else s6
        if !yahoo_analysis_df.isEmpty then
          match relabelAnalysis yahoo_analysis_df with
          | Except.error e => Except.error e
          | Except.ok a2 =>
            Except.ok ⟨filepath, s7 ++ [⟨"Analysis", false, a2⟩]⟩
        else Except.ok ⟨filepath, s7⟩

/-! Section: Concrete scenario fixtures -/

/-- A one-cell table standing in for a non-empty provider frame. -/
def oneCellTable : Table := ⟨[ColHeader.name "2024"], [[CellVal.num 1]]⟩

/-- A non-empty history frame whose index carries timezone offset
`+00:00`. -/
def sampleHistory : HistoryTable :=
  ⟨[⟨0, some 0⟩], [ColHeader.name "Close"], [[CellVal.num 1]]⟩

/-- An empty history frame. -/
def emptyHistory : HistoryTable := ⟨[], [], []⟩

/-- A scraped two-column analysis table with raw positional headers. -/
def analysisRaw : Table :=
  ⟨[ColHeader.idx 0, ColHeader.idx 1], [[CellVal.text "EPS", CellVal.num 1]]⟩

/-- A scraped three-column table with raw positional headers. -/
def analysisThreeCols : Table :=
  ⟨[ColHeader.idx 0, ColHeader.idx 1, ColHeader.idx 2],
    [[CellVal.na, CellVal.na, CellVal.na]]⟩

/-- Pipeline inputs where every upstream source is non-empty except the
balance sheet. -/
def inpEmptyBalance : FetchInputs where
  ticker := "AAA"
  now := ⟨2025, 1, 2, 3, 4, 5⟩
  history := sampleHistory
  balance_sheet := emptyTable
  financials := oneCellTable
  cashflow := oneCellTable
  info := [("sector", CellVal.text "tech")]
  calendar := [("Earnings", CellVal.text "2025-02-01")]
  statsResp := fun _ => HttpResult.ok [oneCellTable]
  analysisResp := fun _ => HttpResult.ok [analysisRaw]

/-- Pipeline inputs where every upstream source is non-empty. -/
def inpAllPresent : FetchInputs :=
  { inpEmptyBalance with balance_sheet := oneCellTable }

/-- Pipeline inputs where only the history frame is empty. -/
def inpEmptyHistory : FetchInputs :=
  { inpAllPresent with history := emptyHistory }

/-- Pipeline inputs whose scraped analysis table has raw positional
headers but three columns instead of two. -/
def inpThreeColAnalysis : FetchInputs :=
  { inpAllPresent with analysisResp := fun _ => HttpResult.ok [analysisThreeCols] }

/-! Section: Helper lemmas -/

lemma scrapeGo_always429 (url : String) (fuel : Nat) :
    ∀ (attempt d : Nat) (evs : List ScrapeEvent),
      scrapeGo url always429 fuel attempt d evs
        = ⟨emptyTable, evs.reverse ++ pattern429 fuel d⟩ := by
  induction fuel with
  | zero => intro attempt d evs; simp [scrapeGo, pattern429]
  | succ n ih =>
    intro attempt d evs
    simp only [scrapeGo, always429, pattern429, errMsgHas, ih]
    simp

lemma sleeps_pattern429 (fuel : Nat) :
    ∀ d : Nat,
      (pattern429 fuel d).filterMap (fun e =>
          match e with
          | ScrapeEvent.sleep x => some x
          | ScrapeEvent.get => none)
        = (List.range fuel).map (fun k => d + 5 * k) := by
  induction fuel with
  | zero => intro d; simp [pattern429]
  | succ n ih =>
    intro d
    have h5 : ∀ k : Nat, d + 5 * (k + 1) = (d + 5) + 5 * k := by intro k; ring
    simp [pattern429, ih, List.range_succ_eq_map, List.map_map, Function.comp, h5]

lemma gets_scrapeGo_le (url : String) (resp : Nat → HttpResult) (fuel : Nat) :
    ∀ (attempt d : Nat) (evs : List ScrapeEvent),
      (scrapeGo url resp fuel attempt d evs).gets
        ≤ (evs.filter (fun e => e = ScrapeEvent.get)).length + fuel := by
  induction fuel with
  | zero =>
    intro attempt d evs
    simp [scrapeGo, ScrapeTrace.gets, List.filter_reverse]
  | succ n ih =>
    intro attempt d evs
    simp only [scrapeGo]
    cases h : resp attempt with
    | ok tables =>
      by_cases he : tables.isEmpty
      · simp only [he, if_pos]
        calc (scrapeGo url resp n (attempt + 1) d (ScrapeEvent.get :: evs)).gets
            ≤ ((ScrapeEvent.get :: evs).filter (fun e => e = ScrapeEvent.get)).length + n :=
              ih (attempt + 1) d (ScrapeEvent.get :: evs)
          _ ≤ (evs.filter (fun e => e = ScrapeEvent.get)).length + (n + 1) := by
              simp [List.filter]; omega
      · simp only [he, if_neg, Bool.false_eq_true, not_false_iff]
        simp [ScrapeTrace.gets, List.filter_reverse, List.filter]
    | httpErr code =>
      by_cases h429 : errMsgHas code url 429 "429"
      · simp only [h429, if_pos]
        calc (scrapeGo url resp n (attempt + 1) (d + 5)
                (ScrapeEvent.sleep d :: ScrapeEvent.get :: evs)).gets
            ≤ ((ScrapeEvent.sleep d :: ScrapeEvent.get :: evs).filter
                (fun e => e = ScrapeEvent.get)).length + n :=
              ih (attempt + 1) (d + 5) (ScrapeEvent.sleep d :: ScrapeEvent.get :: evs)
          _ ≤ (evs.filter (fun e => e = ScrapeEvent.get)).length + (n + 1) := by
              simp [List.filter]; omega
      · simp only [h429, Bool.false_eq_true, not_false_iff, if_neg, ite_self]
        simp [ScrapeTrace.gets, List.filter_reverse, List.filter]
    | exc => simp [ScrapeTrace.gets, List.filter_reverse, List.filter]

lemma cellAt_normThousands (t : Table) (i j : Nat) :
    (normThousands t).cellAt i j
      = (t.cellAt i j).map (fun c => divCell1000 (toNumericCell c)) := by
  simp only [normThousands, Table.cellAt, List.getElem?_map]
  cases t.rows[i]? with
  | none => rfl
  | some r => simp [List.getElem?_map]

/-! Section: Claim theorems -/

/-- C3: on HTTP 429 the scraper sleeps the current delay and retries
with the delay increased by 5, up to `retries` total GET attempts: on an
always-429 URL the sleep durations are exactly `d, d+5, d+5·2, …` (one
per attempt), the number of GET attempts never exceeds `retries` for any
response behaviour, and with the default schedule (`retries=3, delay=5`)
the accumulated sleep time is `5 + 10 + 15 = 30 ≤ 30` seconds. -/
theorem claim_C3_backoff_schedule :
    (∀ (url : String) (r d : Nat), (scrape_yahoo_tables url always429 r d).sleeps
        = (List.range r).map (fun k => d + 5 * k))
    ∧ (∀ (url : String) (resp : Nat → HttpResult) (r d : Nat),
        (scrape_yahoo_tables url resp r d).gets ≤ r)
    ∧ (scrape_yahoo_tables (stats_url "AAPL") always429 3 5).sleeps.sum = 30
    ∧ (scrape_yahoo_tables (stats_url "AAPL") always429 3 5).sleeps.sum ≤ 30 := by
  refine ⟨?_, ?_, by decide, by decide⟩
  · intro url r d
    simp [scrape_yahoo_tables, scrapeGo_always429, ScrapeTrace.sleeps,
      sleeps_pattern429]
  · intro url resp r d
    have h := gets_scrapeGo_le url resp r 0 d []
    simpa [scrape_yahoo_tables] using h

/-- C2 (counterexample): with the default `retries=3` on an
always-429 URL the scraper performs three sleeps — 5, 10 and then 15
seconds — not exactly two as claimed: it also sleeps after the final
failed attempt. -/
theorem claim_C2_counterexample :
    (scrape_yahoo_tables (stats_url "AAPL") always429 3 5).sleeps = [5, 10, 15]
    ∧ (scrape_yahoo_tables (stats_url "AAPL") always429 3 5).sleeps.length ≠ 2 := by
  decide

/-- C2 (amended): on a URL returning HTTP 429 on all three attempts
(default `retries=3`), the scraper returns an empty table and performs
exactly three sleeps of 5, 10 and 15 seconds: two sleeps (5 s, 10 s)
precede the final GET attempt and a third 15-second sleep follows the
final failed attempt before the empty table is returned. -/
theorem claim_C2_three_sleeps_on_429 :
    (scrape_yahoo_tables (stats_url "AAPL") always429 3 5).result = emptyTable
    ∧ (scrape_yahoo_tables (stats_url "AAPL") always429 3 5).events
        = [ScrapeEvent.get, ScrapeEvent.sleep 5, ScrapeEvent.get,
           ScrapeEvent.sleep 10, ScrapeEvent.get, ScrapeEvent.sleep 15] := by
  decide

/-- C4 (counterexample): the claim quantifies over every URL, but on
the analysis page of ticker "429" — a URL containing the digit string
"429" — a GET yielding HTTP 404 on every attempt is caught by the
`"429" in str(e)` test, which precedes the 404 test and matches the URL
embedded in the message: the scraper performs three GET attempts with
backoff sleeps 5, 10, 15 instead of aborting with zero retries and no
sleep. -/
theorem claim_C4_counterexample :
    (scrape_yahoo_tables (analysis_url "429") always404 3 5).events
      = [ScrapeEvent.get, ScrapeEvent.sleep 5, ScrapeEvent.get,
         ScrapeEvent.sleep 10, ScrapeEvent.get, ScrapeEvent.sleep 15]
    ∧ (scrape_yahoo_tables (analysis_url "429") always404 3 5).gets ≠ 1
    ∧ (scrape_yahoo_tables (analysis_url "429") always404 3 5).sleeps ≠ [] := by
  decide

/-- C4 (amended): for every URL that does not contain the digit string
"429", a first GET yielding HTTP 404 makes the scraper abort at once —
the whole trace is a single GET attempt with no sleeps, and the result
is the empty table (returned, not raised — the model is total).  On a
URL containing "429" the 404 is misclassified as rate-limiting and
retried, as the counterexample shows. -/
theorem claim_C4_404_aborts_without_429_in_url (url : String)
    (hurl : strContains url "429" = false) (resp : Nat → HttpResult)
    (h : resp 0 = HttpResult.httpErr 404) (r d : Nat) (hr : 0 < r) :
    scrape_yahoo_tables url resp r d = ⟨emptyTable, [ScrapeEvent.get]⟩ := by
  obtain ⟨n, rfl⟩ : ∃ n, r = n + 1 := ⟨r - 1, by omega⟩
  simp [scrape_yahoo_tables, scrapeGo, h, errMsgHas, hurl]

/-- Witness for the amended C4 at the concrete analysis URL for ticker
AAPL (no "429" in it) with the always-404 oracle and the default
`retries=3, delay=5`. -/
theorem claim_C4_witness :
    scrape_yahoo_tables (analysis_url "AAPL") always404 3 5
      = ⟨emptyTable, [ScrapeEvent.get]⟩ :=
  claim_C4_404_aborts_without_429_in_url (analysis_url "AAPL") (by decide)
    always404 rfl 3 5 (by decide)

/-- C5: the financial-statement normalization coerces every cell to
numeric and divides by 1000: a cell that does not coerce (non-numeric
text, or already missing) comes out as the missing marker, and a cell
that coerces to the number `q` comes out as `q / 1000`. -/
theorem claim_C5_thousands_normalization (t : Table) (i j : Nat) (c : CellVal)
    (h : t.cellAt i j = some c) :
    (toNumericCell c = CellVal.na → (normThousands t).cellAt i j = some CellVal.na)
    ∧ (∀ q : ℚ, toNumericCell c = CellVal.num q →
        (normThousands t).cellAt i j = some (CellVal.num (q / 1000))) := by
  have hmap := cellAt_normThousands t i j
  rw [h] at hmap
  constructor
  · intro hna
    rw [hmap]
    simp [hna, divCell1000]
  · intro q hq
    rw [hmap]
    simp [hq, divCell1000]

/-- Witness for C5 on a mixed balance-sheet-like table: the non-numeric
cell "abc" becomes missing, the numeric cell 2000 becomes 2000/1000. -/
theorem claim_C5_witness :
    (normThousands ⟨[ColHeader.name "A"],
        [[CellVal.text "abc"], [CellVal.num 2000]]⟩).cellAt 0 0
      = some CellVal.na
    ∧ (normThousands ⟨[ColHeader.name "A"],
        [[CellVal.text "abc"], [CellVal.num 2000]]⟩).cellAt 1 0
      = some (CellVal.num ((2000 : ℚ) / 1000)) :=
  ⟨(claim_C5_thousands_normalization
      ⟨[ColHeader.name "A"], [[CellVal.text "abc"], [CellVal.num 2000]]⟩ 0 0
      (CellVal.text "abc") rfl).1 (by decide),
   (claim_C5_thousands_normalization
      ⟨[ColHeader.name "A"], [[CellVal.text "abc"], [CellVal.num 2000]]⟩ 1 0
      (CellVal.num 2000) rfl).2 2000 rfl⟩

/-- C6: the output path is `exports/` followed by the ticker with
every dot mapped to an underscore, then `_YahooFinanceData_`, the
`YYYYMMDD_HHMMSS` timestamp (always 15 characters: 8 date digits, an
underscore, 6 time digits) and `.xlsx`; in particular for ticker
`"BRK.B"` the file name begins with `"BRK_B"`. -/
theorem claim_C6_output_filename (now : PyDateTime) :
    (∀ t : String, outputFilepath t now
        = "exports/" ++ (replaceDot t ++ "_YahooFinanceData_"
            ++ strftimeTimestamp now ++ ".xlsx"))
    ∧ (strftimeTimestamp now).length = 15
    ∧ ∃ rest : String, outputFilename "BRK.B" now = "BRK_B" ++ rest := by
  refine ⟨fun t => rfl, ?_, ?_⟩
  · have h1 : ("_" : String).length = 1 := by decide
    simp [strftimeTimestamp, pad4, pad2, h1]
  · refine ⟨"_YahooFinanceData_" ++ (strftimeTimestamp now ++ ".xlsx"), ?_⟩
    have h : replaceDot "BRK.B" = "BRK_B" := rfl
    calc outputFilename "BRK.B" now
        = (("BRK_B" ++ "_YahooFinanceData_") ++ strftimeTimestamp now) ++ ".xlsx" := by
          unfold outputFilename; rw [h]
      _ = "BRK_B" ++ ("_YahooFinanceData_" ++ (strftimeTimestamp now ++ ".xlsx")) := by
          rw [String.append_assoc, String.append_assoc]

/-- C7: the analysis table (assumed two columns wide, the shape the
relabelling is written for) is relabelled to `Metric`, `Value` exactly
when its first column header is the raw positional index `0`; any other
first header leaves the table unchanged. -/
theorem claim_C7_analysis_relabel_iff (t : Table) (h2 : t.headers.length = 2) :
    (t.headers.head? = some (ColHeader.idx 0) →
      relabelAnalysis t
        = Except.ok { t with headers := [ColHeader.name "Metric", ColHeader.name "Value"] })
    ∧ (t.headers.head? ≠ some (ColHeader.idx 0) → relabelAnalysis t = Except.ok t) := by
  constructor
  · intro h
    simp [relabelAnalysis, h, h2]
  · intro h
    unfold relabelAnalysis
    split
    · next heq => exact absurd heq h
    · rfl

/-- Witness for C7: a headerless two-column scrape is relabelled, a
named two-column table is written unchanged. -/
theorem claim_C7_witness :
    relabelAnalysis ⟨[ColHeader.idx 0, ColHeader.idx 1], [[CellVal.na, CellVal.na]]⟩
      = Except.ok ⟨[ColHeader.name "Metric", ColHeader.name "Value"],
          [[CellVal.na, CellVal.na]]⟩
    ∧ relabelAnalysis ⟨[ColHeader.name "Revenue", ColHeader.name "2024"],
          [[CellVal.na, CellVal.na]]⟩
      = Except.ok ⟨[ColHeader.name "Revenue", ColHeader.name "2024"],
          [[CellVal.na, CellVal.na]]⟩ :=
  ⟨(claim_C7_analysis_relabel_iff
      ⟨[ColHeader.idx 0, ColHeader.idx 1], [[CellVal.na, CellVal.na]]⟩ rfl).1 rfl,
   (claim_C7_analysis_relabel_iff
      ⟨[ColHeader.name "Revenue", ColHeader.name "2024"],
        [[CellVal.na, CellVal.na]]⟩ rfl).2 (by decide)⟩

/-- C8: when the fetched history frame is non-empty, the index
normalization of the pipeline leaves every index entry timezone-naive. -/
theorem claim_C8_history_tz_stripped (h : HistoryTable) (hne : h.isEmpty = false) :
    ∀ e ∈ (normalizeHistory h).index, e.tz = none := by
  intro e he
  simp only [normalizeHistory, hne, Bool.not_false, if_pos] at he
  simp only [List.mem_map] at he
  obtain ⟨x, _, rfl⟩ := he
  rfl

/-- Witness for C8 on a one-row history frame whose index carries offset
`+00:00`. -/
theorem claim_C8_witness :
    TzTime.tz ((normalizeHistory sampleHistory).index.getD 0 ⟨0, some 0⟩) = none :=
  claim_C8_history_tz_stripped sampleHistory rfl _ (by decide)

/-- C9: the analysis relabelling assumes exactly two columns: a
scraped table whose first header is the positional index `0` but whose
width differs from two makes the column assignment fail with a
`ValueError`, which escapes `fetch_and_export` — concretely, the
pipeline run on `inpThreeColAnalysis` (three scraped analysis columns)
ends in that error. -/
theorem claim_C9_relabel_length_mismatch :
    (∀ t : Table, t.headers.head? = some (ColHeader.idx 0) → t.headers.length ≠ 2 →
      relabelAnalysis t = Except.error (PipeError.valueError "Length mismatch"))
    ∧ fetch_and_export inpThreeColAnalysis
        = Except.error (PipeError.valueError "Length mismatch") := by
  constructor
  · intro t h hl
    simp [relabelAnalysis, h, hl]
  · rfl

/-- Witness for C9 at the concrete three-column headerless table. -/
theorem claim_C9_witness :
    relabelAnalysis analysisThreeCols
      = Except.error (PipeError.valueError "Length mismatch") :=
  claim_C9_relabel_length_mismatch.1 analysisThreeCols rfl (by decide)

/-- C1 (code bug): the no-raise guarantee of the spec fails on the code:
with every source non-empty except the balance sheet, the unconditional
`writer.sheets["Balance_Sheet"]` lookup of the formatting block raises
`KeyError` instead of completing with that sheet omitted.  For sources
whose handling is correctly guarded the claimed behaviour does hold: with
only the history empty the run completes and the workbook simply lacks
`Price_History`. -/
theorem claim_C1_keyerror_on_empty_balance_sheet :
    fetch_and_export inpEmptyBalance = Except.error (PipeError.keyError "Balance_Sheet")
    ∧ (fetch_and_export inpEmptyHistory).map (fun wb => wb.sheets.map Sheet.sheetName)
      = Except.ok ["Company_Info", "Balance_Sheet", "Income_Stmnt", "Cashflow",
          "Calendar", "Key_Statistics", "Analysis"] :=
  ⟨rfl, rfl⟩

/-- C10: sheets differ in whether the row index is written: on a run
where all eight sources are present (`inpAllPresent`), the sheets of
the workbook, in write order, are `Company_Info`, `Price_History`,
`Balance_Sheet`, `Income_Stmnt`, `Cashflow`, `Calendar`,
`Key_Statistics`, `Analysis`, and exactly the four frame-backed sheets
`Price_History`, `Balance_Sheet`, `Income_Stmnt`, `Cashflow` carry their
row index (`index=True`); the other four are written with
`index=False`. -/
theorem claim_C10_sheet_index_flags :
    (fetch_and_export inpAllPresent).map
        (fun wb => wb.sheets.map (fun s => (s.sheetName, s.withIndex)))
      = Except.ok [("Company_Info", false), ("Price_History", true),
          ("Balance_Sheet", true), ("Income_Stmnt", true), ("Cashflow", true),
          ("Calendar", false), ("Key_Statistics", false), ("Analysis", false)] :=
  rfl

end YahooFetch
